import Mathlib

/-!
Shallow embedding of the mcp-device-server repository (src/devices/camera.py,
audio.py, screen.py) and proofs about its recording-job lifecycle, error
handling and device-id round-trips.  Python dictionaries returned by the tool
functions are modelled by result structures carrying a success flag, the error
message and the payload fields the claims mention; machine state (the three
module-level job slots) is passed explicitly; external calls (OpenCV, PyAudio,
screeninfo, ffmpeg subprocesses, the filesystem) are modelled by environment
records whose fields give the outcome of each call site.
-/

namespace DeviceServer

/-- Outcome of a Python expression that may raise an exception. -/
inductive Py (α : Type) where
  | ok (a : α) : Py α
  | exn (msg : String) : Py α
deriving Repr, DecidableEq

/-- True when the computation did not raise. -/
def Py.isOk {α : Type} : Py α → Bool
  | Py.ok _ => true
  | Py.exn _ => false

/-- The character for decimal digit d, as Python str() produces it. -/
def digitChar (d : Nat) : Char := Char.ofNat (48 + d)

/-- Value of a decimal digit character, none for non-digits. -/
def digitVal (c : Char) : Option Nat :=
  if 48 ≤ c.toNat ∧ c.toNat ≤ 57 then some (c.toNat - 48) else none

/-- Decimal digits of n, most significant first: the model of Python str(n)
for a nonnegative integer n, as used by f-strings such as f"cam{i}". -/
def pyDigits (n : Nat) : List Char :=
  if h : n < 10 then [digitChar n] else pyDigits (n / 10) ++ [digitChar (n % 10)]
termination_by n
decreasing_by exact Nat.div_lt_self (by omega) (by omega)

/-- 10 to the number of digits of n (helper for the parse round-trip). -/
def pow10 (n : Nat) : Nat :=
  if h : n < 10 then 10 else 10 * pow10 (n / 10)
termination_by n
decreasing_by exact Nat.div_lt_self (by omega) (by omega)

/-- Left fold of decimal digits onto an accumulator; none on a non-digit. -/
def parseDigitsAux : List Char → Nat → Option Nat
  | [], acc => some acc
  | c :: cs, acc =>
    match digitVal c with
    | some d => parseDigitsAux cs (acc * 10 + d)
    | none => none

/-- Parse a nonempty all-digit string; none when empty or on a non-digit. -/
def parseDigits : List Char → Option Nat
  | [] => none
  | c :: cs => parseDigitsAux (c :: cs) 0

/-- Model of Python int(s) on the strings this program feeds it: an optional
leading minus sign followed by decimal digits; anything else raises
ValueError. -/
def pyIntOfChars (l : List Char) : Py Int :=
  if l.head? = some '-' then
    match parseDigits l.tail with
    | some n => Py.ok (-(n : Int))
    | none => Py.exn "ValueError: invalid literal for int() with base 10"
  else
    match parseDigits l with
    | some n => Py.ok ((n : Int))
    | none => Py.exn "ValueError: invalid literal for int() with base 10"

/-- Python str(n) for a natural number. -/
def pyStr (n : Nat) : String := String.mk (pyDigits n)

/-- The pattern removed by device_id.replace, as a character list. -/
def displayPat : List Char := ['d', 'i', 's', 'p', 'l', 'a', 'y']

/-- Model of the Python expression device_id.replace("display", ""): every
occurrence of the pattern is removed, scanning left to right. -/
def replaceDisplay : List Char → List Char
  | [] => []
  | c :: cs =>
    if displayPat.isPrefixOf (c :: cs) then replaceDisplay (cs.drop 6)
    else c :: replaceDisplay cs
termination_by l => l.length
decreasing_by
  · simp only [List.length_drop, List.length_cons]; omega
  · simp only [List.length_cons]; omega

/-- The device id string produced for camera index i by list_cameras,
source f"cam{i}". -/
def camId (i : Nat) : String := String.mk ('c' :: 'a' :: 'm' :: pyDigits i)

/-- The device id string produced for display index i by list_displays,
source f"display{i}". -/
def displayId (i : Nat) : String :=
  String.mk ('d' :: 'i' :: 's' :: 'p' :: 'l' :: 'a' :: 'y' :: pyDigits i)

/-- Model of device_id.startswith("cam") used by the camera operations. -/
def startsWithCam (s : String) : Bool := ['c', 'a', 'm'].isPrefixOf s.data

/-- Model of int(device_id[3:]): the camera index a camera operation resolves
a device id to, raising ValueError on a malformed suffix. -/
def camIndexOf (s : String) : Py Int := pyIntOfChars (s.data.drop 3)

/-- Model of device_id.startswith("display") used by the screen operations. -/
def startsWithDisplay (s : String) : Bool := displayPat.isPrefixOf s.data

/-- Model of int(device_id.replace("display", "")): the display index a screen
operation resolves a device id to. -/
def displayIndexOf (s : String) : Py Int := pyIntOfChars (replaceDisplay s.data)

/-- Model of Python int() applied to a rational value: truncation toward
zero, as in total_frames = int(sample_rate / chunk * duration). -/
def pyTruncInt (q : ℚ) : Int := if q < 0 then -(Int.floor (-q)) else Int.floor q

/-! ### Camera module (src/devices/camera.py) -/

/-- OpenCV backend constants used by the camera module. -/
def CAP_ANY : Nat := 0
def CAP_DSHOW : Nat := 700
def CAP_MSMF : Nat := 1400
def CAP_V4L2 : Nat := 200
def CAP_GSTREAMER : Nat := 1800
def CAP_AVFOUNDATION : Nat := 1200

/-- Outcome of cv2.VideoCapture(index, backend) followed by isOpened and one
read: ctorExn is set when the constructor raised; opened is isOpened();
frameOk is whether read returned a good frame; width, height and backendName
are the properties the code queries on success. -/
structure CamProbe where
  ctorExn : Option String
  opened : Bool
  frameOk : Bool
  width : Nat
  height : Nat
  backendName : String
deriving Repr, DecidableEq

/-- Environment of the camera module: platform string and the outcome of
every external call site. -/
structure CamEnv where
  /-- platform.system().lower() -/
  systemName : String
  /-- outcome of probing camera index i with backend b -/
  probe : Int → Nat → CamProbe
  /-- subprocess.run(["ffmpeg", "-version"]) succeeded with returncode 0 -/
  ffmpegVersionOk : Bool
  /-- some stderr when the background ffmpeg process exited within 0.5 s -/
  procExitsImmediately : Option String
  /-- the fixed-duration ffmpeg run returned returncode 0 -/
  runReturncodeZero : Bool
  /-- stderr of the fixed-duration ffmpeg run -/
  runStderr : String
  /-- os.path.exists(save_path) after the fixed-duration run -/
  savedFileExists : Bool
  /-- an exception raised between the warm-up reads and imwrite, if any -/
  captureExn : Option String
  /-- the final cap.read() in capture_image returned a good frame -/
  mainReadOk : Bool
  /-- cv2.imwrite returned True -/
  imwriteOk : Bool
  /-- process.terminate()/wait raised in stop_video_recording, with message -/
  stopExn : Option String
  /-- file exists and has positive size when stop_video_recording checks it -/
  stopFileNonempty : Bool

/-- One entry of the list returned by list_cameras. -/
structure CamInfo where
  device_id : String
  name : String
  backend : String
deriving Repr, DecidableEq

/-- Backend fallback order tried by list_cameras (lines 48 to 56). -/
def listCamerasBackends (system : String) : List Nat :=
  if system = "windows" then [CAP_DSHOW, CAP_MSMF, CAP_ANY]
  else if system = "darwin" then [CAP_AVFOUNDATION, CAP_ANY]
  else if system = "linux" then [CAP_V4L2, CAP_GSTREAMER, CAP_ANY]
  else [CAP_ANY]

/-- Backend order tried by get_camera_info, capture_image and
start_video_recording (lines 205 to 214). -/
def oneShotBackends (system : String) : List Nat :=
  if system = "windows" then [CAP_DSHOW, CAP_MSMF, CAP_ANY]
  else if system = "linux" then [CAP_V4L2, CAP_GSTREAMER, CAP_ANY]
  else if system = "darwin" then [CAP_AVFOUNDATION, CAP_ANY]
  else [CAP_ANY]

/-- Camera record for index i, as list_cameras appends it. -/
def mkCamInfo (i : Nat) (backendName : String) : CamInfo :=
  ⟨camId i, "Camera " ++ pyStr i, backendName⟩

/-- The fallback loop of list_cameras for one index (lines 58 to 78): a raise
from VideoCapture is swallowed and the next backend is tried; the first
backend that opens and yields a frame wins. -/
def listCamerasFallback (env : CamEnv) (i : Nat) : List Nat → Option CamInfo
  | [] => none
  | b :: bs =>
    let pr := env.probe (i : Int) b
    match pr.ctorExn with
    | some _ => listCamerasFallback env i bs
    | none =>
      if pr.opened && pr.frameOk then some (mkCamInfo i pr.backendName)
      else listCamerasFallback env i bs

/-- The per-index body of list_cameras (lines 30 to 82): first a default
cv2.VideoCapture(i); a raise there is swallowed by the outer except and the
index is skipped; otherwise the platform backend list is tried. -/
def listCamerasIndex (env : CamEnv) (i : Nat) : Option CamInfo :=
  let pr := env.probe (i : Int) CAP_ANY
  match pr.ctorExn with
  | some _ => none
  | none =>
    if pr.opened && pr.frameOk then some (mkCamInfo i pr.backendName)
    else listCamerasFallback env i (listCamerasBackends env.systemName)

/-- list_cameras (lines 22 to 84): probes indices 0 to 9 and returns the
records of the indices that opened and produced a frame.  The found_cameras
set in the source never affects the result because the loop visits every
index exactly once. -/
def list_cameras (env : CamEnv) : List CamInfo :=
  (List.range 10).filterMap (listCamerasIndex env)

/-- Result dictionary of a camera operation: success mirrors
status == "success"; error and file_path are the corresponding keys. -/
structure CamRes where
  success : Bool
  error : Option String
  file_path : Option String
deriving Repr, DecidableEq

/-- Resource and subprocess events of a camera operation, in order. -/
inductive CEv where
  | capOpen (b : Nat)
  | capRelease (b : Nat)
  | ffmpegVersionCheck
  | popenStart
  | ffmpegRun
deriving Repr, DecidableEq

/-- Arguments of capture_image. -/
structure CaptureImageArgs where
  device_id : String
  timer : Int
  save_path : Option String
deriving Repr, DecidableEq

/-- The backend loop of capture_image (lines 216 to 229): a raise is
swallowed and the next backend tried; a backend that opens without a frame is
released immediately; the first backend that opens and yields a frame is kept
open (it is released only by the finally block).  Returns the backend whose
handle is held, with the open and release events emitted so far. -/
def imgProbe (env : CamEnv) (ci : Int) : List Nat → Option (Nat × CamProbe) × List CEv
  | [] => (none, [])
  | b :: bs =>
    let pr := env.probe ci b
    match pr.ctorExn with
    | some _ => imgProbe env ci bs
    | none =>
      if pr.opened then
        if pr.frameOk then (some (b, pr), [CEv.capOpen b])
        else
          let r := imgProbe env ci bs
          (r.1, CEv.capOpen b :: CEv.capRelease b :: r.2)
      else imgProbe env ci bs

/-- capture_image (lines 175 to 278): resolve the id, probe backends, warm-up
reads, timer sleep, one read, imwrite; the finally block releases the handle
on every path on which one is held. -/
def capture_image (env : CamEnv) (a : CaptureImageArgs) : CamRes × List CEv :=
  if startsWithCam a.device_id then
    match camIndexOf a.device_id with
    | Py.exn e => (⟨false, some e, none⟩, [])
    | Py.ok ci =>
      match imgProbe env ci (oneShotBackends env.systemName) with
      | (none, evs) => (⟨false, some "Camera not accessible", none⟩, evs)
      | (some (b, _), evs) =>
        match env.captureExn with
        | some e => (⟨false, some e, none⟩, evs ++ [CEv.capRelease b])
        | none =>
          if ¬ env.mainReadOk then
            (⟨false, some "Failed to capture frame", none⟩, evs ++ [CEv.capRelease b])
          else if ¬ env.imwriteOk then
            (⟨false, some "Failed to save image", none⟩, evs ++ [CEv.capRelease b])
          else
            (⟨true, none, some (a.save_path.getD "/tmp/camera_capture.jpg")⟩,
              evs ++ [CEv.capRelease b])
  else (⟨false, some "Invalid device_id format", none⟩, [])

/-- Arguments of start_video_recording. -/
structure StartVideoArgs where
  device_id : String
  save_path : Option String
  timer : Int
  fps : ℚ
  duration : Int
deriving Repr, DecidableEq

/-- The background video job held in _active_video_recording. -/
structure VideoJob where
  file_path : String
  device_id : String
  start_time : Nat
deriving Repr, DecidableEq

/-- The resolution-probing loop of start_video_recording (lines 364 to 380):
like the capture_image loop but the successful handle is released at once and
only width and height are kept. -/
def resProbe (env : CamEnv) (ci : Int) : List Nat → Option (Nat × Nat) × List CEv
  | [] => (none, [])
  | b :: bs =>
    let pr := env.probe ci b
    match pr.ctorExn with
    | some _ => resProbe env ci bs
    | none =>
      if pr.opened then
        if pr.frameOk then (some (pr.width, pr.height), [CEv.capOpen b, CEv.capRelease b])
        else
          let r := resProbe env ci bs
          (r.1, CEv.capOpen b :: CEv.capRelease b :: r.2)
      else resProbe env ci bs

/-- start_video_recording (lines 285 to 561): rejects when a job is active,
validates arguments, probes the resolution, checks ffmpeg, then either spawns
a background encoder (duration = -1, slot set, cleared again if the process
dies within 0.5 s) or runs a fixed-duration encode synchronously. -/
def start_video_recording (env : CamEnv) (a : StartVideoArgs)
    (st : Option VideoJob) (now : Nat) : CamRes × Option VideoJob × List CEv :=
  match st with
  | some j =>
    (⟨false,
      some "Another video recording is already in progress. Stop it first using stop_video_recording.",
      none⟩, some j, [])
  | none =>
    if startsWithCam a.device_id then
      match camIndexOf a.device_id with
      | Py.exn e => (⟨false, some e, none⟩, none, [])
      | Py.ok ci =>
        if a.duration ≠ -1 ∧ a.duration ≤ 0 then
          (⟨false, some "Duration must be positive or -1 for background recording", none⟩,
            none, [])
        else if a.fps ≤ 0 then (⟨false, some "FPS must be positive", none⟩, none, [])
        else if env.systemName = "darwin" ∧ 30 < a.fps then
          (⟨false, some "FPS cannot exceed 30 for macOS cameras. Use fps=30 or lower.", none⟩,
            none, [])
        else
          match resProbe env ci (oneShotBackends env.systemName) with
          | (none, evs) =>
            (⟨false, some "Could not determine camera resolution", none⟩, none, evs)
          | (some _, evs) =>
            let save_path := a.save_path.getD "/tmp/camera_recording.mp4"
            if ¬ env.ffmpegVersionOk then
              (⟨false, some "Screen recording requires FFmpeg. Install it using your package manager.", none⟩,
                none, evs ++ [CEv.ffmpegVersionCheck])
            else if a.duration = -1 then
              match env.procExitsImmediately with
              | some e =>
                (⟨false, some ("Recording failed to start: " ++ e), none⟩, none,
                  evs ++ [CEv.ffmpegVersionCheck, CEv.popenStart])
              | none =>
                (⟨true, none, some save_path⟩, some ⟨save_path, a.device_id, now⟩,
                  evs ++ [CEv.ffmpegVersionCheck, CEv.popenStart])
            else
              if ¬ env.runReturncodeZero then
                (⟨false, some ("Recording failed: " ++ env.runStderr), none⟩, none,
                  evs ++ [CEv.ffmpegVersionCheck, CEv.ffmpegRun])
              else if ¬ env.savedFileExists then
                (⟨false, some "Recording failed - output file not created", none⟩, none,
                  evs ++ [CEv.ffmpegVersionCheck, CEv.ffmpegRun])
              else
                (⟨true, none, some save_path⟩, none,
                  evs ++ [CEv.ffmpegVersionCheck, CEv.ffmpegRun])
    else (⟨false, some "Invalid device_id format", none⟩, none, [])

/-- stop_video_recording (lines 568 to 607): rejects when no job is active;
otherwise terminates the encoder, clears the slot on every path (the except
handler clears it too), and reports whether a nonempty file exists. -/
def stop_video_recording (env : CamEnv) (st : Option VideoJob) (now : Nat) :
    CamRes × Option VideoJob :=
  match st with
  | none => (⟨false, some "No active video recording found", none⟩, none)
  | some j =>
    match env.stopExn with
    | some e => (⟨false, some ("Error stopping video recording: " ++ e), none⟩, none)
    | none =>
      if env.stopFileNonempty then (⟨true, none, some j.file_path⟩, none)
      else
        (⟨false, some "Recording was stopped but no valid file was created", none⟩, none)

/-! ### Audio module (src/devices/audio.py) -/

/-- One device record as list_audio_devices builds it, with the host api name
already resolved. -/
structure AudioDeviceInfo where
  name : String
  maxInputChannels : Int
  maxOutputChannels : Int
  defaultSampleRate : ℚ
  hostApi : String
deriving Repr, DecidableEq

/-- Environment of the audio module: the outcome of every PyAudio, wave and
filesystem call site. -/
structure AudEnv where
  /-- pyaudio.PyAudio() raised, with message -/
  initExn : Option String
  /-- p.get_device_count(), which may raise -/
  deviceCount : Py Nat
  /-- p.get_device_info_by_index(i) together with the host api lookup -/
  deviceInfo : Int → Py AudioDeviceInfo
  /-- p.get_default_input_device_info(): index and record -/
  defaultInputInfo : Py (Int × AudioDeviceInfo)
  /-- p.open(...) raised, with message -/
  openExn : Option String
  /-- the k-th stream.read of the fixed-duration loop raised, with message -/
  readExn : Nat → Option String
  /-- wave.open/writeframes raised, with message -/
  waveWriteExn : Option String
  /-- output file exists with positive size after the stop flush -/
  savedFileNonempty : Bool
  /-- stream.stop_stream()/close() raised in stop_record_audio, with message -/
  stopStreamExn : Option String
  /-- platform.system() -/
  system : String

/-- Result of list_audio_devices. -/
structure AudListRes where
  input_devices : List AudioDeviceInfo
  output_devices : List AudioDeviceInfo
  error : Option String
deriving Repr, DecidableEq

/-- list_audio_devices (lines 22 to 69): a PyAudio init failure returns empty
lists plus a diagnostic; a per-index lookup failure is swallowed by the inner
except and probing continues; a failure of the device-count query is caught
by the outer except and reported with empty lists. -/
def list_audio_devices (env : AudEnv) : AudListRes :=
  match env.initExn with
  | some e =>
    ⟨[], [],
      some ("Failed to initialize audio system: " ++ e ++ ". On " ++ env.system ++
        ", ensure audio drivers are installed and permissions are granted.")⟩
  | none =>
    match env.deviceCount with
    | Py.exn e => ⟨[], [], some ("Error listing devices: " ++ e)⟩
    | Py.ok count =>
      let devs := (List.range count).filterMap fun i =>
        match env.deviceInfo (i : Int) with
        | Py.exn _ => none
        | Py.ok d => some d
      ⟨devs.filter (fun d => 0 < d.maxInputChannels),
        devs.filter (fun d => 0 < d.maxOutputChannels), none⟩

/-- Arguments of record_audio. -/
structure RecordAudioArgs where
  duration : ℚ
  sample_rate : Int
  channels : Int
  output_file : Option String
  device_index : Option Int
deriving Repr, DecidableEq

/-- The background audio job held in _active_audio_recording; frames counts
the chunks appended by the background thread so far. -/
structure AudioJob where
  output_file : String
  sample_rate : Int
  channels : Int
  frames : Nat
  start_time : Nat
deriving Repr, DecidableEq

/-- Resource and I/O events of an audio operation, in order. -/
inductive AEv where
  | paInit
  | paTerminate
  | streamOpen
  | streamClose
  | readChunk
  | threadStart
  | waveWrite
deriving Repr, DecidableEq

/-- Result dictionary of record_audio and stop_record_audio. -/
structure AudRes where
  success : Bool
  error : Option String
  output_file : Option String
deriving Repr, DecidableEq

/-- chunk = 1024 (line 114). -/
def chunkSize : Nat := 1024

/-- total_frames = int(sample_rate / chunk * duration) (line 211). -/
def totalAudioFrames (sample_rate : Int) (duration : ℚ) : Int :=
  pyTruncInt ((sample_rate : ℚ) / (chunkSize : ℚ) * duration)

/-- The finally block of record_audio (lines 236 to 238): p.terminate() runs
only when duration is not -1. -/
def audFin (duration : ℚ) : List AEv :=
  if duration = -1 then [] else [AEv.paTerminate]

/-- record_audio (lines 76 to 238).  Rejects when a job is active or the
duration is invalid; initializes PyAudio; resolves the device; opens the
stream; then either spawns the background thread and occupies the slot
(duration = -1), or synchronously reads int(sample_rate / chunk * duration)
chunks, closes the stream and writes the WAV file.  Every exception inside
the main try block is returned as a structured error, and the finally block
terminates PyAudio whenever duration is not -1. -/
def record_audio (env : AudEnv) (a : RecordAudioArgs) (st : Option AudioJob)
    (now : Nat) : AudRes × Option AudioJob × List AEv :=
  match st with
  | some j =>
    (⟨false,
      some "Another audio recording is already in progress. Stop it first using stop_record_audio.",
      none⟩, some j, [])
  | none =>
    if a.duration ≠ -1 ∧ a.duration ≤ 0 then
      (⟨false, some "Duration must be positive or -1 for background recording", none⟩,
        none, [])
    else
      let output_file := a.output_file.getD "/tmp/recording.wav"
      match env.initExn with
      | some e =>
        (⟨false, some ("Failed to initialize audio system: " ++ e), none⟩, none, [])
      | none =>
        let devRes : Py AudioDeviceInfo :=
          match a.device_index with
          | some di =>
            match env.deviceInfo di with
            | Py.exn e => Py.exn e
            | Py.ok d =>
              if d.maxInputChannels = 0 then
                Py.exn ("Device " ++ toString di ++ " is not an input device")
              else Py.ok d
          | none =>
            match env.defaultInputInfo with
            | Py.exn e => Py.exn e
            | Py.ok p => Py.ok p.2
        match devRes with
        | Py.exn e =>
          (⟨false, some e, none⟩, none, AEv.paInit :: audFin a.duration)
        | Py.ok _ =>
          match env.openExn with
          | some e =>
            (⟨false, some ("Failed to open audio stream: " ++ e), none⟩, none,
              AEv.paInit :: audFin a.duration)
          | none =>
            if a.duration = -1 then
              (⟨true, none, some output_file⟩,
                some ⟨output_file, a.sample_rate, a.channels, 0, now⟩,
                [AEv.paInit, AEv.streamOpen, AEv.threadStart])
            else
              let total := (totalAudioFrames a.sample_rate a.duration).toNat
              match (List.range total).find? (fun k => (env.readExn k).isSome) with
              | some k0 =>
                (⟨false, env.readExn k0, none⟩, none,
                  AEv.paInit :: AEv.streamOpen ::
                    (List.replicate k0 AEv.readChunk ++ [AEv.paTerminate]))
              | none =>
                match env.waveWriteExn with
                | some e =>
                  (⟨false, some e, none⟩, none,
                    AEv.paInit :: AEv.streamOpen ::
                      (List.replicate total AEv.readChunk ++
                        [AEv.streamClose, AEv.paTerminate]))
                | none =>
                  (⟨true, none, some output_file⟩, none,
                    AEv.paInit :: AEv.streamOpen ::
                      (List.replicate total AEv.readChunk ++
                        [AEv.streamClose, AEv.waveWrite, AEv.paTerminate]))

/-- stop_record_audio (lines 365 to 420).  Rejects when no job is active.  An
exception while signalling or closing the stream is caught by the outer
except, which clears the slot.  A wave flush failure is caught by the inner
except, which returns an error WITHOUT clearing the slot (lines 410 to 414).
On a completed flush the slot is cleared and the file size decides success. -/
def stop_record_audio (env : AudEnv) (st : Option AudioJob) (now : Nat) :
    AudRes × Option AudioJob :=
  match st with
  | none => (⟨false, some "No active audio recording found", none⟩, none)
  | some j =>
    match env.stopStreamExn with
    | some e =>
      (⟨false, some ("Error stopping audio recording: " ++ e), none⟩, none)
    | none =>
      match env.waveWriteExn with
      | some e =>
        (⟨false, some ("Failed to save audio file: " ++ e), none⟩, some j)
      | none =>
        if env.savedFileNonempty then (⟨true, none, some j.output_file⟩, none)
        else
          (⟨false, some "Recording was stopped but no valid file was created", none⟩,
            none)

/-! ### Screen module (src/devices/screen.py) -/

/-- One monitor record returned by screeninfo.get_monitors(). -/
structure Monitor where
  width : Nat
  height : Nat
  is_primary : Bool
  x : Int
  y : Int
deriving Repr, DecidableEq

/-- One entry of the list returned by list_displays. -/
structure DispInfo where
  device_id : String
  name : String
  resolution : String
  is_primary : Bool
  x : Int
  y : Int
deriving Repr, DecidableEq

/-- Environment of the screen module. -/
structure ScrEnv where
  /-- screeninfo.get_monitors(), which may raise -/
  monitors : Py (List Monitor)
  /-- platform.system() -/
  system : String
  /-- subprocess.run(["ffmpeg", "-version"]) succeeded with returncode 0 -/
  ffmpegVersionOk : Bool
  /-- some stderr when the background ffmpeg process exited within 0.5 s -/
  procExitsImmediately : Option String
  /-- the fixed-duration ffmpeg run returned returncode 0 -/
  runReturncodeZero : Bool
  /-- stderr of the fixed-duration ffmpeg run -/
  runStderr : String
  /-- file exists with positive size after the fixed-duration run -/
  savedFileNonempty : Bool
  /-- process.terminate()/wait raised in stop_record_screen, with message -/
  stopExn : Option String
  /-- file exists and has positive size when stop_record_screen checks it -/
  stopFileNonempty : Bool

/-- The display record built for index i over monitor m (lines 30 to 39). -/
def mkDispInfo (i : Nat) (m : Monitor) : DispInfo :=
  ⟨displayId i, "Display " ++ pyStr i, pyStr m.width ++ "x" ++ pyStr m.height,
    m.is_primary, m.x, m.y⟩

/-- list_displays (lines 25 to 41): builds one record per monitor.  The body
has NO try/except, so a raise from get_monitors propagates to the caller. -/
def list_displays (env : ScrEnv) : Py (List DispInfo) :=
  match env.monitors with
  | Py.exn e => Py.exn e
  | Py.ok ms =>
    Py.ok (((List.range ms.length).zip ms).map (fun p => mkDispInfo p.1 p.2))

/-- Result dictionary of the screen operations. -/
structure ScrRes where
  success : Bool
  error : Option String
  file_path : Option String
deriving Repr, DecidableEq

/-- External-call events of record_screen, in order. -/
inductive SEv where
  | monitorsQuery
  | ffmpegVersionCheck
  | popenStart
  | ffmpegRun
deriving Repr, DecidableEq

/-- Arguments of record_screen; the Python defaults are device_id = "0",
duration = 3, fps = 15. -/
structure RecordScreenArgs where
  device_id : Option String
  save_path : Option String
  duration : Option Int
  fps : Option ℚ
deriving Repr, DecidableEq

/-- The background screen job held in _active_screen_recording. -/
structure ScreenJob where
  file_path : String
  device_id : Option String
  start_time : Nat
deriving Repr, DecidableEq

/-- Python truthiness of the optional fps argument (0.0 and None are falsy). -/
def fpsTruthy (fps : Option ℚ) : Bool :=
  match fps with
  | some f => decide (f ≠ 0)
  | none => false

/-- The display-index resolution of record_screen (lines 230 to 232): an
empty or non-display id leaves index 0; int() may raise, and record_screen
has no local handler for that, so the raise is caught only by the outer
except at line 439. -/
def screenDisplayIndex (device_id : Option String) : Py Int :=
  match device_id with
  | none => Py.ok 0
  | some s =>
    if s ≠ "" ∧ startsWithDisplay s then displayIndexOf s else Py.ok 0

/-- record_screen (lines 179 to 440).  Order of the checks: active slot,
duration, fps positive, fps at most 60, then display resolution, monitor
query, save path, ffmpeg check, and the background or fixed-duration encode.
Every raise inside the try block becomes a structured error via the outer
except handlers. -/
def record_screen (env : ScrEnv) (a : RecordScreenArgs) (st : Option ScreenJob)
    (now : Nat) : ScrRes × Option ScreenJob × List SEv :=
  match st with
  | some j =>
    (⟨false,
      some "Another screen recording is already in progress. Stop it first using stop_record_screen.",
      none⟩, some j, [])
  | none =>
    if ∃ d, a.duration = some d ∧ d ≠ -1 ∧ d ≤ 0 then
      (⟨false, some "Duration must be positive or -1 for background recording", none⟩,
        none, [])
    else if fpsTruthy a.fps ∧ ∃ f, a.fps = some f ∧ f ≤ 0 then
      (⟨false, some "FPS must be positive", none⟩, none, [])
    else if fpsTruthy a.fps ∧ ∃ f, a.fps = some f ∧ 60 < f then
      (⟨false, some "FPS should not exceed 60 for optimal performance", none⟩, none, [])
    else
      match screenDisplayIndex a.device_id with
      | Py.exn e =>
        (⟨false, some ("Screen recording failed: " ++ e), none⟩, none, [])
      | Py.ok display_index =>
        match env.monitors with
        | Py.exn e =>
          (⟨false, some ("Screen recording failed: " ++ e), none⟩, none,
            [SEv.monitorsQuery])
        | Py.ok ms =>
          if ms.length = 0 then
            (⟨false, some "No displays found.", none⟩, none, [SEv.monitorsQuery])
          else if (ms.length : Int) ≤ display_index ∨ display_index < 0 then
            (⟨false, some "Display not found.", none⟩, none, [SEv.monitorsQuery])
          else
            let save_path := a.save_path.getD "/tmp/screen_recording.mp4"
            if ¬ env.ffmpegVersionOk then
              (⟨false, some "Screen recording requires FFmpeg. Install it using your package manager.", none⟩,
                none, [SEv.monitorsQuery, SEv.ffmpegVersionCheck])
            else if a.duration = some (-1) then
              match env.procExitsImmediately with
              | some e =>
                (⟨false, some ("Recording failed to start: " ++ e), none⟩, none,
                  [SEv.monitorsQuery, SEv.ffmpegVersionCheck, SEv.popenStart])
              | none =>
                (⟨true, none, some save_path⟩, some ⟨save_path, a.device_id, now⟩,
                  [SEv.monitorsQuery, SEv.ffmpegVersionCheck, SEv.popenStart])
            else
              if ¬ env.runReturncodeZero then
                (⟨false, some ("FFmpeg recording failed: " ++ env.runStderr), none⟩,
                  none, [SEv.monitorsQuery, SEv.ffmpegVersionCheck, SEv.ffmpegRun])
              else if ¬ env.savedFileNonempty then
                (⟨false, some "Video file was not created or is empty", none⟩, none,
                  [SEv.monitorsQuery, SEv.ffmpegVersionCheck, SEv.ffmpegRun])
              else
                (⟨true, none, some save_path⟩, none,
                  [SEv.monitorsQuery, SEv.ffmpegVersionCheck, SEv.ffmpegRun])

/-- stop_record_screen (lines 447 to 488): rejects when no job is active;
otherwise terminates the encoder, clears the slot on every path (the except
handler clears it too), and reports whether a nonempty file exists. -/
def stop_record_screen (env : ScrEnv) (st : Option ScreenJob) (now : Nat) :
    ScrRes × Option ScreenJob :=
  match st with
  | none => (⟨false, some "No active screen recording found", none⟩, none)
  | some j =>
    match env.stopExn with
    | some e => (⟨false, some ("Error stopping screen recording: " ++ e), none⟩, none)
    | none =>
      if env.stopFileNonempty then (⟨true, none, some j.file_path⟩, none)
      else
        (⟨false, some "Recording was stopped but no valid file was created", none⟩, none)

/-! ### Interleaving model of two concurrent start calls

The tool handlers are asyncio coroutines running on one event loop: control
can move between two in-flight calls only at an await expression.  In
start_video_recording there is an await asyncio.sleep(timer) at line 398,
BETWEEN the slot check (line 325) and the slot assignment (line 499), so the
call is modelled by two atomic segments.  record_audio and record_screen
contain no await between their slot check and their slot assignment, so each
is modelled by one atomic segment. -/

/-- Program counter of one task running a start call. -/
inductive StartPc where
  | beforeCheck
  | afterAwait
  | doneStarted
  | doneRejected
deriving Repr, DecidableEq, Fintype

/-- Shared state of the scheduler: the category slot (tagged with the
identity of the task that filled it) and the two program counters. -/
structure SchedState where
  slot : Option Bool
  pcFst : StartPc
  pcSnd : StartPc
deriving Repr, DecidableEq, Fintype

/-- Both tasks start before their slot check, with the slot empty. -/
def schedInit : SchedState := ⟨none, StartPc.beforeCheck, StartPc.beforeCheck⟩

/-- One scheduling step of task t in the two-segment (video) model: segment
one runs the slot check of lines 325 to 397 and suspends at the await;
segment two runs lines 400 to 531, which set the slot and return started
(environment: ffmpeg present, encoder survives). -/
def videoStep (s : SchedState) (t : Bool) : SchedState :=
  let pc := if t then s.pcSnd else s.pcFst
  let pcNew :=
    match pc with
    | StartPc.beforeCheck =>
      if s.slot = none then StartPc.afterAwait else StartPc.doneRejected
    | StartPc.afterAwait => StartPc.doneStarted
    | p => p
  let slotNew :=
    match pc with
    | StartPc.afterAwait => some t
    | _ => s.slot
  if t then ⟨slotNew, s.pcFst, pcNew⟩ else ⟨slotNew, pcNew, s.pcSnd⟩

/-- One scheduling step of task t in the single-segment (audio and screen)
model: the slot check and the slot assignment happen in one atomic step
because the source has no await between them. -/
def atomicStep (s : SchedState) (t : Bool) : SchedState :=
  let pc := if t then s.pcSnd else s.pcFst
  match pc with
  | StartPc.beforeCheck =>
    if s.slot = none then
      if t then ⟨some t, s.pcFst, StartPc.doneStarted⟩
      else ⟨some t, StartPc.doneStarted, s.pcSnd⟩
    else
      if t then ⟨s.slot, s.pcFst, StartPc.doneRejected⟩
      else ⟨s.slot, StartPc.doneRejected, s.pcSnd⟩
  | _ => s

/-- Run a schedule (list of task ids) in the video model. -/
def videoRun (sched : List Bool) : SchedState := sched.foldl videoStep schedInit

/-- Run a schedule in the atomic model. -/
def atomicRun (sched : List Bool) : SchedState := sched.foldl atomicStep schedInit

/-- Both concurrent start calls created a job. -/
def bothStarted (s : SchedState) : Bool :=
  decide (s.pcFst = StartPc.doneStarted) && decide (s.pcSnd = StartPc.doneStarted)

/-- Invariant of the single-segment model: a started task implies an
occupied slot, and the two tasks never both start. -/
def atomicInv (s : SchedState) : Bool :=
  (!(decide (s.pcFst = StartPc.doneStarted) || decide (s.pcSnd = StartPc.doneStarted)) ||
    decide (s.slot ≠ none)) &&
  !(decide (s.pcFst = StartPc.doneStarted) && decide (s.pcSnd = StartPc.doneStarted))

/-! ### Event counting and concrete environments used in the proofs -/

/-- Number of camera handles opened in a trace. -/
def camOpens : List CEv → Nat
  | [] => 0
  | CEv.capOpen _ :: tr => camOpens tr + 1
  | _ :: tr => camOpens tr

/-- Number of camera handles released in a trace. -/
def camReleases : List CEv → Nat
  | [] => 0
  | CEv.capRelease _ :: tr => camReleases tr + 1
  | _ :: tr => camReleases tr

/-- A probe outcome where the camera opens and yields a frame. -/
def camProbeGood : CamProbe := ⟨none, true, true, 640, 480, "V4L2"⟩

/-- A probe outcome where the camera does not open. -/
def camProbeFail : CamProbe := ⟨none, false, false, 0, 0, ""⟩

/-- Camera environment on Linux where every call succeeds. -/
def camEnvOk : CamEnv :=
  ⟨"linux", fun _ _ => camProbeGood, true, none, true, "", true, none, true, true,
    none, true⟩

/-- Camera environment where no backend opens any camera. -/
def camEnvNoCamera : CamEnv :=
  ⟨"linux", fun _ _ => camProbeFail, true, none, true, "", true, none, true, true,
    none, true⟩

/-- Camera environment where the background encoder dies within 0.5 s. -/
def camEnvProcDies : CamEnv :=
  ⟨"linux", fun _ _ => camProbeGood, true, some "device busy", true, "", true, none,
    true, true, none, true⟩

/-- A default input device record. -/
def micDev : AudioDeviceInfo := ⟨"Mic", 1, 0, 44100, "alsa"⟩

/-- Audio environment where every call succeeds. -/
def audEnvOk : AudEnv :=
  ⟨none, Py.ok 1, fun _ => Py.ok micDev, Py.ok (0, micDev), none, fun _ => none,
    none, true, none, "Linux"⟩

/-- Audio environment where PyAudio fails to initialize. -/
def audEnvInitFail : AudEnv :=
  ⟨some "no backend", Py.ok 0, fun _ => Py.exn "unused", Py.exn "unused",
    none, fun _ => none, none, false, none, "Linux"⟩

/-- Audio environment where the stream cannot be opened. -/
def audEnvOpenFail : AudEnv :=
  ⟨none, Py.ok 1, fun _ => Py.ok micDev, Py.ok (0, micDev), some "Device unavailable",
    fun _ => none, none, false, none, "Linux"⟩

/-- Audio environment where the wave flush of the stop handler raises. -/
def audEnvFlushFail : AudEnv :=
  ⟨none, Py.ok 1, fun _ => Py.ok micDev, Py.ok (0, micDev), none, fun _ => none,
    some "No space left on device", true, none, "Linux"⟩

/-- A background audio job as record_audio stores it. -/
def audJob : AudioJob := ⟨"/tmp/recording.wav", 44100, 1, 3, 0⟩

/-- A fixed-duration record_audio call: one second at 2048 Hz, two chunks. -/
def audioArgsFixed : RecordAudioArgs := ⟨1, 2048, 1, none, none⟩

/-- A background record_audio call. -/
def audioArgsBg : RecordAudioArgs := ⟨-1, 44100, 1, none, none⟩

/-- A background start_video_recording call on cam0. -/
def videoArgsBg : StartVideoArgs := ⟨camId 0, none, 0, 30, -1⟩

/-- A capture_image call on cam0. -/
def imgArgs : CaptureImageArgs := ⟨camId 0, 0, none⟩

/-- One 1920x1080 primary monitor. -/
def monitor0 : Monitor := ⟨1920, 1080, true, 0, 0⟩

/-- Screen environment with one monitor where every call succeeds. -/
def scrEnvOk : ScrEnv := ⟨Py.ok [monitor0], "Linux", true, none, true, "", true, none, true⟩

/-- Screen environment where get_monitors raises. -/
def scrEnvMonFail : ScrEnv :=
  ⟨Py.exn "failed to query displays", "Linux", true, none, true, "", true, none, true⟩

/-- Screen environment where the background encoder dies within 0.5 s. -/
def scrEnvProcDies : ScrEnv :=
  ⟨Py.ok [monitor0], "Linux", true, some "x11grab failed", true, "", true, none, true⟩

/-- A background record_screen call on display 0. -/
def screenArgsBg : RecordScreenArgs := ⟨some "0", none, some (-1), some 15⟩

/-- A record_screen call asking for 61 frames per second. -/
def screenArgsFastFps : RecordScreenArgs := ⟨some "0", none, some 3, some 61⟩

/-! ### Helper lemmas -/

theorem digitVal_digitChar : ∀ d, d < 10 → digitVal (digitChar d) = some d := by
  decide

theorem parseDigitsAux_append (xs ys : List Char) :
    ∀ k, parseDigitsAux (xs ++ ys) k =
      match parseDigitsAux xs k with
      | some m => parseDigitsAux ys m
      | none => none := by
  induction xs with
  | nil => intro k; rfl
  | cons c cs ih =>
    intro k
    simp only [List.cons_append, parseDigitsAux]
    cases digitVal c with
    | none => rfl
    | some d => exact ih (k * 10 + d)

theorem parseDigitsAux_pyDigits (n : Nat) :
    ∀ k, parseDigitsAux (pyDigits n) k = some (k * pow10 n + n) := by
  induction n using Nat.strong_induction_on with
  | _ n ih =>
    intro k
    by_cases h : n < 10
    · rw [pyDigits]
      simp only [h, dif_pos]
      rw [pow10]
      simp only [h, dif_pos]
      simp [parseDigitsAux, digitVal_digitChar n h]
    · rw [pyDigits]
      simp only [h, dif_neg, not_false_iff]
      rw [parseDigitsAux_append]
      rw [ih (n / 10) (Nat.div_lt_self (by omega) (by omega)) k]
      have hm : n % 10 < 10 := Nat.mod_lt _ (by omega)
      simp only [parseDigitsAux, digitVal_digitChar _ hm]
      have hpow : pow10 n = 10 * pow10 (n / 10) := by
        rw [pow10]; simp [h]
      rw [hpow]
      congr 1
      calc (k * pow10 (n / 10) + n / 10) * 10 + n % 10
          = k * (10 * pow10 (n / 10)) + (10 * (n / 10) + n % 10) := by ring
        _ = k * (10 * pow10 (n / 10)) + n := by rw [Nat.div_add_mod]

theorem pyDigits_ne_nil (n : Nat) : pyDigits n ≠ [] := by
  rw [pyDigits]
  by_cases h : n < 10 <;> simp [h]

theorem parseDigits_pyDigits (n : Nat) : parseDigits (pyDigits n) = some n := by
  cases hp : pyDigits n with
  | nil => exact absurd hp (pyDigits_ne_nil n)
  | cons c cs =>
    have h0 := parseDigitsAux_pyDigits n 0
    rw [hp] at h0
    rw [parseDigits, h0]
    simp

theorem pyDigits_mem_digit (n : Nat) :
    ∀ c ∈ pyDigits n, (digitVal c).isSome := by
  induction n using Nat.strong_induction_on with
  | _ n ih =>
    intro c hc
    rw [pyDigits] at hc
    by_cases h : n < 10
    · simp only [h, dif_pos, List.mem_singleton] at hc
      subst hc
      simp [digitVal_digitChar n h]
    · simp only [h, dif_neg, not_false_iff, List.mem_append, List.mem_singleton] at hc
      rcases hc with hc | hc
      · exact ih (n / 10) (Nat.div_lt_self (by omega) (by omega)) c hc
      · subst hc
        have hm : n % 10 < 10 := by omega
        simp [digitVal_digitChar _ hm]

theorem pyDigits_head_ne_minus (n : Nat) : (pyDigits n).head? ≠ some '-' := by
  cases hp : pyDigits n with
  | nil => simp
  | cons c cs =>
    simp only [List.head?, ne_eq, Option.some.injEq]
    intro hcm
    have hmem : c ∈ pyDigits n := by rw [hp]; exact List.mem_cons_self _ _
    have hdig := pyDigits_mem_digit n c hmem
    subst hcm
    simp [digitVal] at hdig

theorem pyIntOfChars_pyDigits (n : Nat) : pyIntOfChars (pyDigits n) = Py.ok (n : Int) := by
  rw [pyIntOfChars, if_neg (pyDigits_head_ne_minus n)]
  rw [parseDigits_pyDigits n]

theorem replaceDisplay_pat (rest : List Char) :
    replaceDisplay ('d' :: 'i' :: 's' :: 'p' :: 'l' :: 'a' :: 'y' :: rest) =
      replaceDisplay rest := by
  rw [replaceDisplay]
  have hpre : displayPat.isPrefixOf
      ('d' :: 'i' :: 's' :: 'p' :: 'l' :: 'a' :: 'y' :: rest) = true := by
    simp [displayPat, List.isPrefixOf]
  rw [if_pos hpre]
  have hdrop : List.drop 6 ('i' :: 's' :: 'p' :: 'l' :: 'a' :: 'y' :: rest) = rest := rfl
  rw [hdrop]

theorem replaceDisplay_digits (l : List Char)
    (hl : ∀ c ∈ l, (digitVal c).isSome) : replaceDisplay l = l := by
  induction l with
  | nil => rw [replaceDisplay]
  | cons c cs ih =>
    rw [replaceDisplay]
    have hc : (digitVal c).isSome := hl c (List.mem_cons_self _ _)
    have hne : ('d' == c) = false := by
      apply beq_eq_false_iff_ne.mpr
      intro hdc
      rw [← hdc] at hc
      simp [digitVal] at hc
    have hpre : displayPat.isPrefixOf (c :: cs) = false := by
      simp [displayPat, List.isPrefixOf, hne]
    rw [if_neg (by simp [hpre])]
    rw [ih (fun a ha => hl a (List.mem_cons_of_mem _ ha))]

theorem camIndexOf_camId (i : Nat) : camIndexOf (camId i) = Py.ok (i : Int) := by
  show pyIntOfChars (List.drop 3 ('c' :: 'a' :: 'm' :: pyDigits i)) = Py.ok (i : Int)
  rw [show List.drop 3 ('c' :: 'a' :: 'm' :: pyDigits i) = pyDigits i from rfl]
  exact pyIntOfChars_pyDigits i

theorem startsWithCam_camId (i : Nat) : startsWithCam (camId i) = true := by
  show List.isPrefixOf ['c', 'a', 'm'] ('c' :: 'a' :: 'm' :: pyDigits i) = true
  simp [List.isPrefixOf]

theorem displayIndexOf_displayId (i : Nat) :
    displayIndexOf (displayId i) = Py.ok (i : Int) := by
  show pyIntOfChars
      (replaceDisplay ('d' :: 'i' :: 's' :: 'p' :: 'l' :: 'a' :: 'y' :: pyDigits i)) =
      Py.ok (i : Int)
  rw [replaceDisplay_pat, replaceDisplay_digits _ (pyDigits_mem_digit i)]
  exact pyIntOfChars_pyDigits i

theorem startsWithDisplay_displayId (i : Nat) :
    startsWithDisplay (displayId i) = true := by
  show List.isPrefixOf displayPat
      ('d' :: 'i' :: 's' :: 'p' :: 'l' :: 'a' :: 'y' :: pyDigits i) = true
  simp [displayPat, List.isPrefixOf]

theorem camId_mem_list_cameras (env : CamEnv) (j : Nat) (hj : j < 10)
    (h1 : (env.probe (j : Int) CAP_ANY).ctorExn = none)
    (h2 : (env.probe (j : Int) CAP_ANY).opened = true)
    (h3 : (env.probe (j : Int) CAP_ANY).frameOk = true) :
    camId j ∈ (list_cameras env).map CamInfo.device_id := by
  have hidx : listCamerasIndex env j =
      some (mkCamInfo j (env.probe (j : Int) CAP_ANY).backendName) := by
    rw [listCamerasIndex]
    simp only [h1, h2, h3]
    rfl
  apply List.mem_map.mpr
  refine ⟨mkCamInfo j (env.probe (j : Int) CAP_ANY).backendName, ?_, rfl⟩
  apply List.mem_filterMap.mpr
  exact ⟨j, List.mem_range.mpr hj, hidx⟩

theorem listCamerasFallback_none (env : CamEnv) (i : Nat)
    (hf : ∀ b, (env.probe (i : Int) b).frameOk = false) :
    ∀ bs, listCamerasFallback env i bs = none := by
  intro bs
  induction bs with
  | nil => rfl
  | cons b rest ih =>
    rw [listCamerasFallback]
    cases hcb : (env.probe (i : Int) b).ctorExn with
    | some e => exact ih
    | none =>
      simp only [hf b, Bool.and_false, if_neg]
      exact ih

theorem list_cameras_total_failure (env : CamEnv)
    (hf : ∀ (ci : Int) (b : Nat), (env.probe ci b).frameOk = false) :
    list_cameras env = [] := by
  rw [list_cameras]
  apply List.filterMap_eq_nil_iff.mpr
  intro j hj
  rw [listCamerasIndex]
  cases hcb : (env.probe (j : Int) CAP_ANY).ctorExn with
  | some e => rfl
  | none =>
    simp only [hf (j : Int) CAP_ANY, Bool.and_false, if_neg]
    exact listCamerasFallback_none env j (fun b => hf (j : Int) b) _

theorem imgProbe_balance (env : CamEnv) (ci : Int) :
    ∀ bs, camOpens (imgProbe env ci bs).2 =
      camReleases (imgProbe env ci bs).2 +
        (match (imgProbe env ci bs).1 with | some _ => 1 | none => 0) := by
  intro bs
  induction bs with
  | nil => rfl
  | cons b rest ih =>
    rw [imgProbe]
    cases hcb : (env.probe ci b).ctorExn with
    | some e => exact ih
    | none =>
      cases ho : (env.probe ci b).opened with
      | false =>
        simp only [Bool.false_eq_true, if_false]
        exact ih
      | true =>
        cases hfr : (env.probe ci b).frameOk with
        | true => rfl
        | false =>
          simp only [if_true, Bool.false_eq_true, if_false]
          simp only [camOpens, camReleases] at ih ⊢
          omega

theorem atomicInv_step :
    ∀ (s : SchedState) (t : Bool), atomicInv s = true → atomicInv (atomicStep s t) = true := by
  decide

theorem atomicInv_run :
    ∀ (sched : List Bool) (s : SchedState),
      atomicInv s = true → atomicInv (sched.foldl atomicStep s) = true := by
  intro sched
  induction sched with
  | nil => intro s hs; exact hs
  | cons t rest ih =>
    intro s hs
    exact ih (atomicStep s t) (atomicInv_step s t hs)

theorem atomicInv_not_both :
    ∀ s : SchedState, atomicInv s = true → bothStarted s = false := by
  decide

theorem displayId_mem_list_displays (env : ScrEnv) (ms : List Monitor) (i : Nat)
    (hm : env.monitors = Py.ok ms) (hi : i < ms.length) :
    ∃ ds, list_displays env = Py.ok ds ∧ displayId i ∈ ds.map DispInfo.device_id := by
  refine ⟨((List.range ms.length).zip ms).map (fun p => mkDispInfo p.1 p.2), ?_, ?_⟩
  · rw [list_displays, hm]
  · have hl : i < ((List.range ms.length).zip ms).length := by
      simp only [List.length_zip, List.length_range]
      omega
    have hmemzip : (i, ms[i]) ∈ (List.range ms.length).zip ms := by
      have hmem := List.getElem_mem hl
      rw [List.getElem_zip] at hmem
      rw [List.getElem_range] at hmem
      exact hmem
    apply List.mem_map.mpr
    refine ⟨mkDispInfo i ms[i], ?_, rfl⟩
    apply List.mem_map.mpr
    exact ⟨(i, ms[i]), hmemzip, rfl⟩

theorem camOpens_append (l1 l2 : List CEv) :
    camOpens (l1 ++ l2) = camOpens l1 + camOpens l2 := by
  induction l1 with
  | nil => simp [camOpens]
  | cons e tr ih =>
    cases e <;> simp only [List.cons_append, camOpens, List.append_eq] <;> rw [ih] <;> omega

theorem camReleases_append (l1 l2 : List CEv) :
    camReleases (l1 ++ l2) = camReleases l1 + camReleases l2 := by
  induction l1 with
  | nil => simp [camReleases]
  | cons e tr ih =>
    cases e <;> simp only [List.cons_append, camReleases, List.append_eq] <;> rw [ih] <;> omega

/-- C1: for every recording category, a second start call while a job is
active returns the already-active error and leaves the slot, the stored job
and its fields unchanged; no probe, subprocess or stream event is emitted, so
the first job is untouched and at most one job per category exists. -/
theorem start_rejected_when_job_active :
    (∀ (env : CamEnv) (a : StartVideoArgs) (j : VideoJob) (now : Nat),
      start_video_recording env a (some j) now =
        (⟨false,
          some "Another video recording is already in progress. Stop it first using stop_video_recording.",
          none⟩, some j, [])) ∧
    (∀ (env : AudEnv) (a : RecordAudioArgs) (j : AudioJob) (now : Nat),
      record_audio env a (some j) now =
        (⟨false,
          some "Another audio recording is already in progress. Stop it first using stop_record_audio.",
          none⟩, some j, [])) ∧
    (∀ (env : ScrEnv) (a : RecordScreenArgs) (j : ScreenJob) (now : Nat),
      record_screen env a (some j) now =
        (⟨false,
          some "Another screen recording is already in progress. Stop it first using stop_record_screen.",
          none⟩, some j, [])) := by
  exact ⟨fun env a j now => rfl, fun env a j now => rfl, fun env a j now => rfl⟩

/-- C2 counterexample: in stop_record_audio, a wave flush failure is caught
by the inner except handler, which returns an error WITHOUT clearing
_active_audio_recording (audio.py lines 410 to 414), so the claim that every
stop clears the slot on every return path fails at this concrete input. -/
theorem stop_audio_flush_failure_keeps_slot :
    (stop_record_audio audEnvFlushFail (some audJob) 0).1.success = false ∧
    ¬ (stop_record_audio audEnvFlushFail (some audJob) 0).2 = none := by
  decide

/-- C2 (amended): stop_video_recording and stop_record_screen clear their
slot on every return path; stop_record_audio clears its slot on every return
path EXCEPT a wave flush failure, where it reports the failure in the stop
result but leaves the slot occupied. -/
theorem stop_clears_slot_except_audio_flush :
    (∀ (env : CamEnv) (j : VideoJob) (now : Nat),
      (stop_video_recording env (some j) now).2 = none) ∧
    (∀ (env : ScrEnv) (j : ScreenJob) (now : Nat),
      (stop_record_screen env (some j) now).2 = none) ∧
    (∀ (env : AudEnv) (j : AudioJob) (now : Nat),
      (stop_record_audio env (some j) now).2 = none ∨
      ((stop_record_audio env (some j) now).1.success = false ∧
       (stop_record_audio env (some j) now).2 = some j)) := by
  refine ⟨?_, ?_, ?_⟩
  · intro env j now
    rw [stop_video_recording]
    cases env.stopExn with
    | some e => rfl
    | none => cases env.stopFileNonempty <;> rfl
  · intro env j now
    rw [stop_record_screen]
    cases env.stopExn with
    | some e => rfl
    | none => cases env.stopFileNonempty <;> rfl
  · intro env j now
    rw [stop_record_audio]
    cases env.stopStreamExn with
    | some e => exact Or.inl rfl
    | none =>
      cases env.waveWriteExn with
      | some e => exact Or.inr ⟨rfl, rfl⟩
      | none => cases env.savedFileNonempty <;> exact Or.inl rfl

/-- C6: every stop operation called with an empty slot returns the
no-active-job error and performs no state change and no external call. -/
theorem stop_without_active_job_is_pure_error :
    (∀ (env : CamEnv) (now : Nat),
      stop_video_recording env none now =
        (⟨false, some "No active video recording found", none⟩, none)) ∧
    (∀ (env : AudEnv) (now : Nat),
      stop_record_audio env none now =
        (⟨false, some "No active audio recording found", none⟩, none)) ∧
    (∀ (env : ScrEnv) (now : Nat),
      stop_record_screen env none now =
        (⟨false, some "No active screen recording found", none⟩, none)) := by
  exact ⟨fun env now => rfl, fun env now => rfl, fun env now => rfl⟩

/-- C10: a record_screen call with fps above 60 returns an error result
before the monitor query, any ffmpeg invocation and any slot write: the
result is a failure, the slot is returned unchanged and the event trace is
empty. -/
theorem record_screen_fps_over_60_rejected_early :
    ∀ (env : ScrEnv) (a : RecordScreenArgs) (st : Option ScreenJob) (now : Nat) (f : ℚ),
      a.fps = some f → 60 < f →
      (record_screen env a st now).1.success = false ∧
      (record_screen env a st now).2.1 = st ∧
      (record_screen env a st now).2.2 = [] := by
  intro env a st now f hf h60
  cases st with
  | some j => exact ⟨rfl, rfl, rfl⟩
  | none =>
    rw [record_screen]
    by_cases hdur : ∃ d, a.duration = some d ∧ d ≠ -1 ∧ d ≤ 0
    · rw [if_pos hdur]
      exact ⟨rfl, rfl, rfl⟩
    · rw [if_neg hdur]
      have hc2 : ¬ (fpsTruthy a.fps = true ∧ ∃ g, a.fps = some g ∧ g ≤ 0) := by
        rintro ⟨-, g, hg, hle⟩
        rw [hf] at hg
        injection hg with hg
        rw [← hg] at hle
        linarith
      rw [if_neg hc2]
      have hc3 : fpsTruthy a.fps = true ∧ ∃ g, a.fps = some g ∧ 60 < g := by
        refine ⟨?_, f, hf, h60⟩
        rw [hf]
        simp only [fpsTruthy, decide_eq_true_eq]
        intro h0
        rw [h0] at h60
        linarith
      rw [if_pos hc3]
      exact ⟨rfl, rfl, rfl⟩

/-- C10 witness: a concrete call with fps = 61 against the one-monitor
environment is rejected with no monitor query, no encoder start and the slot
left empty. -/
theorem record_screen_fps_over_60_rejected_early_witness :
    (record_screen scrEnvOk screenArgsFastFps none 0).1.success = false ∧
    (record_screen scrEnvOk screenArgsFastFps none 0).2.1 = none ∧
    (record_screen scrEnvOk screenArgsFastFps none 0).2.2 = [] := by
  exact record_screen_fps_over_60_rejected_early scrEnvOk screenArgsFastFps none 0 61
    rfl (by norm_num)

/-- C4 counterexample: in the event-loop interleaving model of
start_video_recording, whose await asyncio.sleep(timer) at camera.py line
398 sits between the slot check (line 325) and the slot assignment (line
499), the schedule first-second-first-second lets BOTH concurrent start
calls observe the empty slot and both create a job, so the check-then-set of
the video category is not atomic as the claim states. -/
theorem video_start_check_set_not_atomic :
    ¬ ∀ sched : List Bool, bothStarted (videoRun sched) = false := by
  intro hall
  exact absurd (hall [false, true, false, true]) (by decide)

/-- C4 (amended): for the audio and screen categories the start handler has
no await between the slot check and the slot assignment, so check-then-set
is one atomic event-loop step and no schedule of two concurrent starts lets
both create a job; for the video category the await between check and set
breaks this, and the concrete schedule shows both starts succeeding. -/
theorem start_check_set_atomic_only_for_audio_screen :
    (∀ sched : List Bool, bothStarted (atomicRun sched) = false) ∧
    bothStarted (videoRun [false, true, false, true]) = true := by
  constructor
  · intro sched
    exact atomicInv_not_both _ (atomicInv_run sched schedInit (by decide))
  · decide

/-- C3 counterexample: list_displays has no try/except around the monitor
query, so a raise from get_monitors propagates to the caller instead of an
empty listing with a diagnostic: at this concrete environment the call does
not return a structured result. -/
theorem list_displays_raises_on_monitor_failure :
    (list_displays scrEnvMonFail).isOk = false := by
  decide

/-- C3 (amended): the probing enumerations swallow per-index errors and
continue: an index whose default probe opens and yields a frame appears in
list_cameras regardless of failures at other indices, and total probing
failure yields the empty list (with no diagnostic); a PyAudio init failure
makes list_audio_devices return empty lists plus a diagnostic message; but
list_displays propagates a raise from the monitor query unchanged instead of
returning a structured result. -/
theorem enumeration_failure_policy :
    (∀ (env : CamEnv) (j : Nat), j < 10 →
      (env.probe (j : Int) CAP_ANY).ctorExn = none →
      (env.probe (j : Int) CAP_ANY).opened = true →
      (env.probe (j : Int) CAP_ANY).frameOk = true →
      camId j ∈ (list_cameras env).map CamInfo.device_id) ∧
    (∀ env : CamEnv, (∀ (ci : Int) (b : Nat), (env.probe ci b).frameOk = false) →
      list_cameras env = []) ∧
    (∀ (env : AudEnv) (e : String), env.initExn = some e →
      (list_audio_devices env).input_devices = [] ∧
      (list_audio_devices env).output_devices = [] ∧
      (list_audio_devices env).error.isSome = true) ∧
    (∀ (env : ScrEnv) (e : String), env.monitors = Py.exn e →
      list_displays env = Py.exn e) := by
  refine ⟨camId_mem_list_cameras, list_cameras_total_failure, ?_, ?_⟩
  · intro env e he
    rw [list_audio_devices, he]
    exact ⟨rfl, rfl, rfl⟩
  · intro env e he
    rw [list_displays, he]

/-- C3 witness: the amended policy evaluated at concrete environments: a
working camera index is listed, total camera failure gives the empty list,
an audio init failure gives empty lists plus a diagnostic, and the failing
monitor query propagates out of list_displays. -/
theorem enumeration_failure_policy_witness :
    camId 0 ∈ (list_cameras camEnvOk).map CamInfo.device_id ∧
    list_cameras camEnvNoCamera = [] ∧
    ((list_audio_devices audEnvInitFail).input_devices = [] ∧
     (list_audio_devices audEnvInitFail).output_devices = [] ∧
     (list_audio_devices audEnvInitFail).error.isSome = true) ∧
    list_displays scrEnvMonFail = Py.exn "failed to query displays" := by
  refine ⟨?_, ?_, ?_, ?_⟩
  · exact enumeration_failure_policy.1 camEnvOk 0 (by omega) rfl rfl rfl
  · exact enumeration_failure_policy.2.1 camEnvNoCamera (fun ci b => rfl)
  · exact enumeration_failure_policy.2.2.1 audEnvInitFail "no backend" rfl
  · exact enumeration_failure_policy.2.2.2 scrEnvMonFail "failed to query displays" rfl

/-- C5: a start whose backend open fails (no backend yields a frame for the
camera, the audio stream cannot be opened) or whose background encoder dies
within the startup window returns an error result and leaves the category
slot empty, so the failed start has no lasting effect on job state. -/
theorem start_backend_failure_leaves_slot_idle :
    (∀ (env : CamEnv) (a : StartVideoArgs) (now : Nat),
      (∀ ci : Int, (resProbe env ci (oneShotBackends env.systemName)).1 = none) →
      (start_video_recording env a none now).1.success = false ∧
      (start_video_recording env a none now).2.1 = none) ∧
    (∀ (env : CamEnv) (a : StartVideoArgs) (now : Nat) (e : String),
      a.duration = -1 → env.procExitsImmediately = some e →
      (start_video_recording env a none now).1.success = false ∧
      (start_video_recording env a none now).2.1 = none) ∧
    (∀ (env : AudEnv) (a : RecordAudioArgs) (now : Nat) (e : String),
      env.openExn = some e →
      (record_audio env a none now).1.success = false ∧
      (record_audio env a none now).2.1 = none) ∧
    (∀ (env : ScrEnv) (a : RecordScreenArgs) (now : Nat) (e : String),
      a.duration = some (-1) → env.procExitsImmediately = some e →
      (record_screen env a none now).1.success = false ∧
      (record_screen env a none now).2.1 = none) := by
  refine ⟨?_, ?_, ?_, ?_⟩
  · intro env a now h
    have key : ((start_video_recording env a none now).1.success,
        (start_video_recording env a none now).2.1) = (false, none) := by
      rw [start_video_recording]
      by_cases h1 : startsWithCam a.device_id = true
      · rw [if_pos h1]
        cases hci : camIndexOf a.device_id with
        | exn e => rfl
        | ok ci =>
          dsimp only
          by_cases h2 : a.duration ≠ -1 ∧ a.duration ≤ 0
          · rw [if_pos h2]
          · rw [if_neg h2]
            by_cases h3 : a.fps ≤ 0
            · rw [if_pos h3]
            · rw [if_neg h3]
              by_cases h4 : env.systemName = "darwin" ∧ 30 < a.fps
              · rw [if_pos h4]
              · rw [if_neg h4]
                have hp := h ci
                rcases hr : resProbe env ci (oneShotBackends env.systemName) with ⟨r, evs⟩
                rw [hr] at hp
                have hp2 : r = none := hp
                subst hp2
                rfl
      · rw [if_neg h1]
    exact ⟨congrArg Prod.fst key, congrArg Prod.snd key⟩
  · intro env a now e hd hp
    have key : ((start_video_recording env a none now).1.success,
        (start_video_recording env a none now).2.1) = (false, none) := by
      rw [start_video_recording]
      by_cases h1 : startsWithCam a.device_id = true
      · rw [if_pos h1]
        cases hci : camIndexOf a.device_id with
        | exn e2 => rfl
        | ok ci =>
          dsimp only
          rw [if_neg (fun hcon => hcon.1 hd)]
          by_cases h3 : a.fps ≤ 0
          · rw [if_pos h3]
          · rw [if_neg h3]
            by_cases h4 : env.systemName = "darwin" ∧ 30 < a.fps
            · rw [if_pos h4]
            · rw [if_neg h4]
              rcases hr : resProbe env ci (oneShotBackends env.systemName) with ⟨r, evs⟩
              cases r with
              | none => rfl
              | some wh =>
                dsimp only
                by_cases h5 : env.ffmpegVersionOk = true
                · rw [if_neg (by simp [h5])]
                  rw [if_pos hd]
                  rw [hp]
                · rw [if_pos h5]
      · rw [if_neg h1]
    exact ⟨congrArg Prod.fst key, congrArg Prod.snd key⟩
  · intro env a now e ho
    have key : ((record_audio env a none now).1.success,
        (record_audio env a none now).2.1) = (false, none) := by
      rw [record_audio]
      by_cases h2 : a.duration ≠ -1 ∧ a.duration ≤ 0
      · rw [if_pos h2]
      · rw [if_neg h2]
        cases hi : env.initExn with
        | some e2 => rfl
        | none =>
          dsimp only
          cases hdi : a.device_index with
          | some di =>
            dsimp only
            cases hdd : env.deviceInfo di with
            | exn e2 => rfl
            | ok d =>
              dsimp only
              by_cases hch : d.maxInputChannels = 0
              · rw [if_pos hch]
              · rw [if_neg hch]
                rw [ho]
          | none =>
            dsimp only
            cases hdf : env.defaultInputInfo with
            | exn e2 => rfl
            | ok p =>
              dsimp only
              rw [ho]
    exact ⟨congrArg Prod.fst key, congrArg Prod.snd key⟩
  · intro env a now e hd hp
    have key : ((record_screen env a none now).1.success,
        (record_screen env a none now).2.1) = (false, none) := by
      rw [record_screen]
      have hc1 : ¬ ∃ d, a.duration = some d ∧ d ≠ -1 ∧ d ≤ 0 := by
        rintro ⟨d, hdd, hne, -⟩
        rw [hd] at hdd
        injection hdd with hdd2
        exact hne hdd2.symm
      rw [if_neg hc1]
      by_cases hc2 : fpsTruthy a.fps = true ∧ ∃ g, a.fps = some g ∧ g ≤ 0
      · rw [if_pos hc2]
      · rw [if_neg hc2]
        by_cases hc3 : fpsTruthy a.fps = true ∧ ∃ g, a.fps = some g ∧ 60 < g
        · rw [if_pos hc3]
        · rw [if_neg hc3]
          cases hsd : screenDisplayIndex a.device_id with
          | exn e2 => rfl
          | ok di =>
            dsimp only
            cases hm : env.monitors with
            | exn e2 => rfl
            | ok ms =>
              dsimp only
              by_cases hlen : ms.length = 0
              · rw [if_pos hlen]
              · rw [if_neg hlen]
                by_cases hrange : (ms.length : Int) ≤ di ∨ di < 0
                · rw [if_pos hrange]
                · rw [if_neg hrange]
                  by_cases hff : env.ffmpegVersionOk = true
                  · rw [if_neg (by simp [hff])]
                    rw [if_pos hd]
                    rw [hp]
                  · rw [if_pos hff]
    exact ⟨congrArg Prod.fst key, congrArg Prod.snd key⟩

/-- C5 witness: the four failure modes evaluated at concrete inputs: no
camera opens; the video encoder dies at once; the audio stream open raises;
the screen encoder dies at once.  Each start reports failure and leaves its
slot empty. -/
theorem start_backend_failure_leaves_slot_idle_witness :
    ((start_video_recording camEnvNoCamera videoArgsBg none 0).1.success = false ∧
     (start_video_recording camEnvNoCamera videoArgsBg none 0).2.1 = none) ∧
    ((start_video_recording camEnvProcDies videoArgsBg none 0).1.success = false ∧
     (start_video_recording camEnvProcDies videoArgsBg none 0).2.1 = none) ∧
    ((record_audio audEnvOpenFail audioArgsFixed none 0).1.success = false ∧
     (record_audio audEnvOpenFail audioArgsFixed none 0).2.1 = none) ∧
    ((record_screen scrEnvProcDies screenArgsBg none 0).1.success = false ∧
     (record_screen scrEnvProcDies screenArgsBg none 0).2.1 = none) := by
  refine ⟨?_, ?_, ?_, ?_⟩
  · exact start_backend_failure_leaves_slot_idle.1 camEnvNoCamera videoArgsBg 0
      (fun ci => rfl)
  · exact start_backend_failure_leaves_slot_idle.2.1 camEnvProcDies videoArgsBg 0
      "device busy" rfl rfl
  · exact start_backend_failure_leaves_slot_idle.2.2.1 audEnvOpenFail audioArgsFixed 0
      "Device unavailable" rfl
  · exact start_backend_failure_leaves_slot_idle.2.2.2 scrEnvProcDies screenArgsBg 0
      "x11grab failed" rfl rfl

theorem record_audio_trace_shape (env : AudEnv) (a : RecordAudioArgs)
    (st : Option AudioJob) (now : Nat) (hdur : a.duration ≠ -1) :
    (record_audio env a st now).2.2 = [] ∨
    (record_audio env a st now).2.2 = [AEv.paInit, AEv.paTerminate] ∨
    (∃ k, (record_audio env a st now).2.2 =
      AEv.paInit :: AEv.streamOpen ::
        (List.replicate k AEv.readChunk ++ [AEv.paTerminate])) ∨
    (∃ k, (record_audio env a st now).2.2 =
      AEv.paInit :: AEv.streamOpen ::
        (List.replicate k AEv.readChunk ++ [AEv.streamClose, AEv.paTerminate])) ∨
    (∃ k, (record_audio env a st now).2.2 =
      AEv.paInit :: AEv.streamOpen ::
        (List.replicate k AEv.readChunk ++
          [AEv.streamClose, AEv.waveWrite, AEv.paTerminate])) := by
  have hfin : audFin a.duration = [AEv.paTerminate] := by rw [audFin, if_neg hdur]
  cases st with
  | some j => exact Or.inl rfl
  | none =>
    rw [record_audio]
    by_cases h2 : a.duration ≠ -1 ∧ a.duration ≤ 0
    · rw [if_pos h2]
      exact Or.inl rfl
    · rw [if_neg h2]
      cases hi : env.initExn with
      | some e => exact Or.inl rfl
      | none =>
        dsimp only
        cases hdi : a.device_index with
        | some di =>
          dsimp only
          cases hdd : env.deviceInfo di with
          | exn e2 =>
            rw [hfin]
            exact Or.inr (Or.inl rfl)
          | ok d =>
            dsimp only
            by_cases hch : d.maxInputChannels = 0
            · rw [if_pos hch]
              dsimp only
              rw [hfin]
              exact Or.inr (Or.inl rfl)
            · rw [if_neg hch]
              dsimp only
              cases hoe : env.openExn with
              | some e2 =>
                rw [hfin]
                exact Or.inr (Or.inl rfl)
              | none =>
                dsimp only
                rw [if_neg hdur]
                cases hfk : (List.range
                    (totalAudioFrames a.sample_rate a.duration).toNat).find?
                    (fun k => (env.readExn k).isSome) with
                | some k0 => exact Or.inr (Or.inr (Or.inl ⟨k0, rfl⟩))
                | none =>
                  dsimp only
                  cases hw : env.waveWriteExn with
                  | some e2 =>
                    exact Or.inr (Or.inr (Or.inr (Or.inl
                      ⟨(totalAudioFrames a.sample_rate a.duration).toNat, rfl⟩)))
                  | none =>
                    exact Or.inr (Or.inr (Or.inr (Or.inr
                      ⟨(totalAudioFrames a.sample_rate a.duration).toNat, rfl⟩)))
        | none =>
          dsimp only
          cases hdf : env.defaultInputInfo with
          | exn e2 =>
            rw [hfin]
            exact Or.inr (Or.inl rfl)
          | ok p =>
            dsimp only
            cases hoe : env.openExn with
            | some e2 =>
              rw [hfin]
              exact Or.inr (Or.inl rfl)
            | none =>
              dsimp only
              rw [if_neg hdur]
              cases hfk : (List.range
                  (totalAudioFrames a.sample_rate a.duration).toNat).find?
                  (fun k => (env.readExn k).isSome) with
              | some k0 => exact Or.inr (Or.inr (Or.inl ⟨k0, rfl⟩))
              | none =>
                dsimp only
                cases hw : env.waveWriteExn with
                | some e2 =>
                  exact Or.inr (Or.inr (Or.inr (Or.inl
                    ⟨(totalAudioFrames a.sample_rate a.duration).toNat, rfl⟩)))
                | none =>
                  exact Or.inr (Or.inr (Or.inr (Or.inr
                    ⟨(totalAudioFrames a.sample_rate a.duration).toNat, rfl⟩)))

/-- C7: a record_audio call with a positive finite duration reads exactly
int(sample_rate / chunk * duration) chunks synchronously, closes the stream,
writes the WAV file and returns success with the slot left empty, with no
external stop call involved (reads, stream open and the device lookup all
succeeding). -/
theorem fixed_duration_audio_reads_exact_chunks :
    ∀ (env : AudEnv) (a : RecordAudioArgs) (now : Nat) (p : Int × AudioDeviceInfo),
      0 < a.duration →
      env.initExn = none →
      a.device_index = none →
      env.defaultInputInfo = Py.ok p →
      env.openExn = none →
      (∀ k, env.readExn k = none) →
      env.waveWriteExn = none →
      (record_audio env a none now).1.success = true ∧
      (record_audio env a none now).2.1 = none ∧
      (record_audio env a none now).2.2.count AEv.readChunk =
        (totalAudioFrames a.sample_rate a.duration).toNat ∧
      AEv.streamClose ∈ (record_audio env a none now).2.2 ∧
      AEv.waveWrite ∈ (record_audio env a none now).2.2 := by
  intro env a now p hdur hinit hdev hdef hopen hread hwave
  have hd1 : ¬(a.duration ≠ -1 ∧ a.duration ≤ 0) :=
    fun hcon => absurd hdur (not_lt.mpr hcon.2)
  have hd2 : ¬(a.duration = -1) := by
    intro hx
    rw [hx] at hdur
    norm_num at hdur
  have hfind : (List.range (totalAudioFrames a.sample_rate a.duration).toNat).find?
      (fun k => (env.readExn k).isSome) = none := by
    apply List.find?_eq_none.mpr
    intro x hx
    simp [hread x]
  have hd3 : ¬(a.duration ≤ 0) := not_le.mpr hdur
  refine ⟨?_, ?_, ?_, ?_, ?_⟩ <;>
    simp [record_audio, hinit, hdev, hdef, hopen, hwave, hd1, hd2, hd3, hfind,
      List.count_cons, List.count_append, List.count_replicate]

/-- C7 witness: one second at 2048 Hz with 1024-frame chunks reads exactly
int(2048 / 1024 * 1) = 2 chunks, closes the stream, writes the file and
returns success. -/
theorem fixed_duration_audio_reads_exact_chunks_witness :
    (record_audio audEnvOk audioArgsFixed none 0).1.success = true ∧
    (record_audio audEnvOk audioArgsFixed none 0).2.1 = none ∧
    (record_audio audEnvOk audioArgsFixed none 0).2.2.count AEv.readChunk =
      (totalAudioFrames audioArgsFixed.sample_rate audioArgsFixed.duration).toNat ∧
    AEv.streamClose ∈ (record_audio audEnvOk audioArgsFixed none 0).2.2 ∧
    AEv.waveWrite ∈ (record_audio audEnvOk audioArgsFixed none 0).2.2 :=
  fixed_duration_audio_reads_exact_chunks audEnvOk audioArgsFixed 0 (0, micDev)
    (by decide) rfl rfl rfl rfl (fun k => rfl) rfl

/-- C8: capture_image releases every camera handle it opens on every exit
path (the open and release events of its trace balance), and a non-background
record_audio terminates the PyAudio instance on every exit path and leaves
the stream either closed or covered by that termination (Pa_Terminate closes
streams that are still open). -/
theorem one_shot_capture_releases_resources :
    (∀ (env : CamEnv) (a : CaptureImageArgs),
      camOpens (capture_image env a).2 = camReleases (capture_image env a).2) ∧
    (∀ (env : AudEnv) (a : RecordAudioArgs) (st : Option AudioJob) (now : Nat),
      a.duration ≠ -1 →
      (AEv.paInit ∈ (record_audio env a st now).2.2 →
        AEv.paTerminate ∈ (record_audio env a st now).2.2) ∧
      (AEv.streamOpen ∈ (record_audio env a st now).2.2 →
        AEv.streamClose ∈ (record_audio env a st now).2.2 ∨
        AEv.paTerminate ∈ (record_audio env a st now).2.2)) := by
  constructor
  · intro env a
    rw [capture_image]
    by_cases h1 : startsWithCam a.device_id = true
    · rw [if_pos h1]
      cases hci : camIndexOf a.device_id with
      | exn e => rfl
      | ok ci =>
        dsimp only
        have hbal := imgProbe_balance env ci (oneShotBackends env.systemName)
        rcases hr : imgProbe env ci (oneShotBackends env.systemName) with ⟨r, evs⟩
        rw [hr] at hbal
        cases r with
        | none =>
          dsimp only
          simpa using hbal
        | some bp =>
          rcases bp with ⟨b, pr⟩
          have hbal2 : camOpens evs = camReleases evs + 1 := hbal
          dsimp only
          cases hce : env.captureExn with
          | some e =>
            simp only [camOpens_append, camReleases_append, camOpens, camReleases, hbal2]
          | none =>
            dsimp only
            by_cases hmr : env.mainReadOk = true
            · rw [if_neg (by simp [hmr])]
              by_cases hiw : env.imwriteOk = true
              · rw [if_neg (by simp [hiw])]
                simp only [camOpens_append, camReleases_append, camOpens, camReleases,
                  hbal2]
              · rw [if_pos hiw]
                simp only [camOpens_append, camReleases_append, camOpens, camReleases,
                  hbal2]
            · rw [if_pos hmr]
              simp only [camOpens_append, camReleases_append, camOpens, camReleases,
                hbal2]
    · rw [if_neg h1]
      rfl
  · intro env a st now hdur
    rcases record_audio_trace_shape env a st now hdur with
      h | h | ⟨k, h⟩ | ⟨k, h⟩ | ⟨k, h⟩
    · rw [h]
      exact ⟨fun hm => absurd hm (by simp), fun hm => absurd hm (by simp)⟩
    · rw [h]
      exact ⟨fun hm => by simp, fun hm => absurd hm (by simp)⟩
    · rw [h]
      exact ⟨fun hm => by simp, fun hm => Or.inr (by simp)⟩
    · rw [h]
      exact ⟨fun hm => by simp, fun hm => Or.inl (by simp)⟩
    · rw [h]
      exact ⟨fun hm => by simp, fun hm => Or.inl (by simp)⟩

/-- C8 witness: a successful capture_image run balances its handle events,
and the two-chunk fixed-duration audio recording terminates PyAudio with the
stream closed. -/
theorem one_shot_capture_releases_resources_witness :
    camOpens (capture_image camEnvOk imgArgs).2 =
      camReleases (capture_image camEnvOk imgArgs).2 ∧
    ((AEv.paInit ∈ (record_audio audEnvOk audioArgsFixed none 0).2.2 →
      AEv.paTerminate ∈ (record_audio audEnvOk audioArgsFixed none 0).2.2) ∧
     (AEv.streamOpen ∈ (record_audio audEnvOk audioArgsFixed none 0).2.2 →
      AEv.streamClose ∈ (record_audio audEnvOk audioArgsFixed none 0).2.2 ∨
      AEv.paTerminate ∈ (record_audio audEnvOk audioArgsFixed none 0).2.2)) :=
  ⟨one_shot_capture_releases_resources.1 camEnvOk imgArgs,
   one_shot_capture_releases_resources.2 audEnvOk audioArgsFixed none 0 (by decide)⟩

/-- C9: the device id strings produced by the enumerations round-trip: every
camera operation resolves "cam" ++ str(i) back to index i via int(s[3:]) and
accepts the format check, every screen operation resolves "display" ++ str(i)
back to i via int(s.replace("display", "")), and the enumerations produce
exactly ids of these shapes. -/
theorem device_id_round_trip :
    (∀ i : Nat, startsWithCam (camId i) = true ∧
      camIndexOf (camId i) = Py.ok (i : Int)) ∧
    (∀ i : Nat, startsWithDisplay (displayId i) = true ∧
      displayIndexOf (displayId i) = Py.ok (i : Int)) ∧
    (∀ (env : CamEnv) (i : Nat), i < 10 →
      (env.probe (i : Int) CAP_ANY).ctorExn = none →
      (env.probe (i : Int) CAP_ANY).opened = true →
      (env.probe (i : Int) CAP_ANY).frameOk = true →
      camId i ∈ (list_cameras env).map CamInfo.device_id) ∧
    (∀ (env : ScrEnv) (ms : List Monitor) (i : Nat),
      env.monitors = Py.ok ms → i < ms.length →
      ∃ ds, list_displays env = Py.ok ds ∧
        displayId i ∈ ds.map DispInfo.device_id) :=
  ⟨fun i => ⟨startsWithCam_camId i, camIndexOf_camId i⟩,
   fun i => ⟨startsWithDisplay_displayId i, displayIndexOf_displayId i⟩,
   camId_mem_list_cameras, displayId_mem_list_displays⟩

/-- C9 witness: the round-trips evaluated at cam3, display12, a listed cam0
and a listed display0. -/
theorem device_id_round_trip_witness :
    (startsWithCam (camId 3) = true ∧ camIndexOf (camId 3) = Py.ok 3) ∧
    (startsWithDisplay (displayId 12) = true ∧
      displayIndexOf (displayId 12) = Py.ok 12) ∧
    camId 0 ∈ (list_cameras camEnvOk).map CamInfo.device_id ∧
    (∃ ds, list_displays scrEnvOk = Py.ok ds ∧
      displayId 0 ∈ ds.map DispInfo.device_id) :=
  ⟨device_id_round_trip.1 3, device_id_round_trip.2.1 12,
   device_id_round_trip.2.2.1 camEnvOk 0 (by omega) rfl rfl rfl,
   device_id_round_trip.2.2.2 scrEnvOk [monitor0] 0 rfl (by norm_num)⟩

end DeviceServer
